import Mathlib

/-!
Verification of the HR request/approval service (`src/my-app/app/main.py`)
against its natural-language specification.

This file gives a shallow embedding of the data model and the API handlers
of the service, and proves or refutes the frozen claims about it.

Encoding conventions:
* Python dates (`datetime.date`) are modelled as their proleptic Gregorian
  ordinal (`Int`, day number with 0001-01-01 = 1), which is exactly how
  Python compares and subtracts dates.
* `parse_date` models `datetime.strptime(value, "%Y-%m-%d").date()` as a
  total function into `Option Int`: `none` for a `ValueError` (unparseable),
  `some` for the resulting ordinal.
* Python dict payloads are modelled as structures of `Option` fields
  (`none` = key absent); Python truthiness of a string field ("" and absent
  are both falsy) is `falsyOpt`.
* Each handler is a pure function from the loaded dataset (plus the request
  identity and payload) to a response; handlers that mutate the store also
  return the dataset that gets saved.
* A handler outcome is an `ApiResult`: `err status msg` for a
  `respond_json(status, ok False ...)` reply, `errFields` when the reply also
  carries a `fields` list, `internal` for an exception escaping to
  `handle_error` (the generic 500), `ok v` for the success reply.
-/

namespace HRApp

/-- A user record, as stored under the `users` key of the dataset. -/
structure User where
  id : String
  name : String
  role : String
  department : String
  manager_id : Option String
  annual_leave_allowance : Int
deriving Repr, DecidableEq

/-- A leave request record (`leave_requests` bucket). -/
structure LeaveRequest where
  id : String
  user_id : String
  employee_name : String
  department : String
  leave_type : String
  start_date : String
  end_date : String
  days : Int
  reason : String
  status : String
  approver_comment : String
  approved_by : String
  created_at : String
deriving Repr, DecidableEq

/-- An attendance correction record (`attendance_corrections` bucket). -/
structure AttendanceCorrection where
  id : String
  user_id : String
  employee_name : String
  department : String
  date : String
  clock_in : String
  clock_out : String
  break_minutes : Int
  overtime_hours : Int
  reason : String
  status : String
  approver_comment : String
  approved_by : String
  created_at : String
deriving Repr, DecidableEq

/-- An approval route entry: (department, manager_id). -/
structure ApprovalRoute where
  department : String
  manager_id : String
deriving Repr, DecidableEq

/-- The whole persisted dataset. `holidays` models the nested
`work_calendar.holidays` list of the JSON document. -/
structure Dataset where
  users : List User
  leave_types : List String
  holidays : List String
  approval_routes : List ApprovalRoute
  leave_requests : List LeaveRequest
  attendance_corrections : List AttendanceCorrection
deriving Repr, DecidableEq

/-! ### Date parsing (`parse_date`) -/

/-- Gregorian leap-year test. -/
def isLeap (y : Nat) : Bool :=
  (y % 4 == 0 && y % 100 != 0) || y % 400 == 0

/-- Number of days in month `m` of year `y`. -/
def daysInMonth (y m : Nat) : Nat :=
  if m == 2 then (if isLeap y then 29 else 28)
  else if m == 4 || m == 6 || m == 9 || m == 11 then 30
  else 31

/-- Days in all years strictly before year `y` (proleptic Gregorian). -/
def daysBeforeYear (y : Nat) : Nat :=
  365 * (y - 1) + (y - 1) / 4 - (y - 1) / 100 + (y - 1) / 400

/-- Days in year `y` strictly before month `m`. -/
def daysBeforeMonth (y m : Nat) : Nat :=
  (List.range (m - 1)).foldl (fun a i => a + daysInMonth y (i + 1)) 0

/-- Proleptic Gregorian ordinal of (y, m, d): `date(y,m,d).toordinal()`. -/
def toOrdinal (y m d : Nat) : Int :=
  (daysBeforeYear y + daysBeforeMonth y m + d : Nat)

/-- Split a character list on the dash separator, like `"%Y-%m-%d"`
splits the input into its three fields (same semantics as a split on a
single-character separator: empty pieces are kept). -/
def splitOnDash : List Char → List (List Char)
  | [] => [[]]
  | c :: cs =>
    if c = '-' then [] :: splitOnDash cs
    else
      match splitOnDash cs with
      | [] => [[c]]
      | h :: t => (c :: h) :: t

/-- Accumulate the value of a digit run; `none` on a non-digit. -/
def parseNatAux : List Char → Nat → Option Nat
  | [], acc => some acc
  | c :: cs, acc =>
    if c.isDigit then parseNatAux cs (10 * acc + (c.toNat - 48)) else none

/-- Parse a run of decimal digits (strict: nonempty, digits only). -/
def parseNatStrict : List Char → Option Nat
  | [] => none
  | s => parseNatAux s 0

/-- The year field of strptime `%Y`: exactly four decimal digits
(regex `\d\d\d\d`). -/
def parseYear (s : List Char) : Option Nat :=
  if s.length = 4 then parseNatStrict s else none

/-- The month field of strptime `%m`: one or two decimal digits, whose
value is checked to lie in 1..12 afterwards (this is exactly the language
of the regex `1[0-2]|0[1-9]|[1-9]`). -/
def parseMonth (s : List Char) : Option Nat :=
  if s.length ≤ 2 then parseNatStrict s else none

/-- The day field of strptime `%d`: one or two decimal digits, or a space
followed by one nonzero digit (regex `3[0-1]|[1-2]\d|0[1-9]|[1-9]| [1-9]`,
whose two-digit bound of 31 is subsumed by the later calendar check). -/
def parseDay (s : List Char) : Option Nat :=
  match s with
  | [' ', c] => if c.isDigit && c ≠ '0' then some (c.toNat - 48) else none
  | _ => if s.length ≤ 2 then parseNatStrict s else none

/-- Model of `parse_date`: `datetime.strptime(value, "%Y-%m-%d").date()`.
Returns the date ordinal, or `none` when strptime raises `ValueError`:
wrong shape, non-digits, a year not exactly 4 digits, a field too wide,
or components out of calendar range (strptime matches the whole string
against the three field regexes joined by literal dashes, then the date
constructor validates year ≥ 1, month in 1..12 and day against the month
length). -/
def parse_date (value : String) : Option Int :=
  match splitOnDash value.data with
  | [ys, ms, ds] =>
    match parseYear ys, parseMonth ms, parseDay ds with
    | some y, some m, some d =>
      if 1 ≤ y && y ≤ 9999 && 1 ≤ m && m ≤ 12 && 1 ≤ d && d ≤ daysInMonth y m
      then some (toOrdinal y m d)
      else none
    | _, _, _ => none
  | _ => none

/-! ### Request plumbing: identity, results, helpers -/

/-- The identity headers of a request: `X-User-Id` and `X-User-Role`
(`none` = header absent). -/
structure Identity where
  user_id : Option String
  role : Option String
deriving Repr, DecidableEq

/-- Python string truthiness for an optional header/payload field:
falsy when absent or empty. -/
def falsyOpt : Option String → Bool
  | none => true
  | some s => s.isEmpty

/-- Outcome of a handler. `err status msg` models
`respond_json(status, ok False, message=msg)`; `errFields` additionally
carries the `fields` list; `internal` models an exception escaping to
`handle_error` (generic 500); `ok v` is the success reply. -/
inductive ApiResult (α : Type) where
  | err (status : Nat) (msg : String)
  | errFields (status : Nat) (msg : String) (fields : List String)
  | internal
  | ok (value : α)
deriving Repr, DecidableEq

/-- Early-return propagation of a failed `require_user`/guard step. -/
def ApiResult.bind {α β : Type} : ApiResult α → (α → ApiResult β) → ApiResult β
  | .err s m, _ => .err s m
  | .errFields s m fs, _ => .errFields s m fs
  | .internal, _ => .internal
  | .ok a, f => f a

/-- Early-return propagation for handlers that also thread the dataset:
an error leaves the store untouched. -/
def ApiResult.bindState {α β : Type} (r : ApiResult α) (data : Dataset)
    (f : α → ApiResult β × Dataset) : ApiResult β × Dataset :=
  match r with
  | .err s m => (.err s m, data)
  | .errFields s m fs => (.errFields s m fs, data)
  | .internal => (.internal, data)
  | .ok a => f a

/-- Model of `user_lookup(data)[uid]` as an optional lookup: the Python dict
comprehension keeps the LAST record for a duplicated id, hence the reverse. -/
def user_lookup (data : Dataset) (uid : String) : Option User :=
  data.users.reverse.find? (fun u => u.id == uid)

/-- Models the `{}` default of `users.get(r["user_id"], {})`: every field
lookup on it yields the missing value (`manager_id` → None, strings → `""`,
`annual_leave_allowance` → 0). -/
def emptyUser : User :=
  { id := "", name := "", role := "", department := "", manager_id := none,
    annual_leave_allowance := 0 }

/-- `in_team(manager, target_user)`: admins are in-team of everyone, else a
direct-report test on the target record. -/
def in_team (manager target : User) : Bool :=
  if manager.role == "admin" then true
  else target.manager_id == some manager.id

/-- `guard_role`: does the role of the actor belong to the allowed set. -/
def guard_role (user : User) (allowed : List String) : Bool :=
  allowed.contains user.role

/-- `require_user`: resolve the asserted identity headers against the user
table; 401 when the id header is falsy, 403 when unknown, 403 when a truthy
asserted role mismatches the stored role. -/
def require_user (data : Dataset) (ident : Identity) : ApiResult User :=
  if falsyOpt ident.user_id then .err 401 "Missing X-User-Id"
  else
    match user_lookup data (ident.user_id.getD "") with
    | none => .err 403 "Unknown user"
    | some user =>
      if !falsyOpt ident.role && !(ident.role == some user.role) then
        .err 403 "Role mismatch for this user"
      else .ok user

/-! ### Listing (`api_list_requests`) -/

/-- The visibility filter of `api_list_requests`, generic over the record
type of the bucket (`uid` extracts `r["user_id"]`). -/
def list_scope_filter {α : Type} (user : User) (lookup : String → Option User)
    (scope : String) (uid : α → String) (items : List α) : List α :=
  if user.role == "admin" then items
  else if user.role == "manager" then
    if scope == "team" then
      items.filter (fun r =>
        in_team user ((lookup (uid r)).getD emptyUser) || uid r == user.id)
    else items.filter (fun r => uid r == user.id)
  else items.filter (fun r => uid r == user.id)

/-- `api_list_requests` for `category="leave"`. `scope` is the raw query
parameter (default `"mine"`). -/
def api_list_leave (data : Dataset) (ident : Identity) (scope : Option String) :
    ApiResult (List LeaveRequest) :=
  (require_user data ident).bind fun user =>
    .ok (list_scope_filter user (user_lookup data) (scope.getD "mine")
      (fun r => r.user_id) data.leave_requests)

/-- `api_list_requests` for `category="correction"`. -/
def api_list_corrections (data : Dataset) (ident : Identity) (scope : Option String) :
    ApiResult (List AttendanceCorrection) :=
  (require_user data ident).bind fun user =>
    .ok (list_scope_filter user (user_lookup data) (scope.getD "mine")
      (fun r => r.user_id) data.attendance_corrections)

/-! ### Creation (`api_create_leave`, `api_create_correction`) -/

/-- Request payload of `api_create_leave`. The fields after `reason` are
caller-supplied keys the handler never reads (they model identity-spoofing
or days-overriding attempts in the JSON body). -/
structure LeaveBody where
  start_date : Option String
  end_date : Option String
  leave_type : Option String
  reason : Option String
  user_id : Option String
  employee_name : Option String
  department : Option String
  days : Option Int
deriving Repr, DecidableEq

/-- The `missing` list of `api_create_leave`, in source order. -/
def leave_missing (b : LeaveBody) : List String :=
  (if falsyOpt b.start_date then ["start_date"] else []) ++
  (if falsyOpt b.end_date then ["end_date"] else []) ++
  (if falsyOpt b.leave_type then ["leave_type"] else []) ++
  (if falsyOpt b.reason then ["reason"] else [])

/-- `api_create_leave`. `new_id` and `created_at` stand for the
nondeterministic `generate_id("lv")` and `utcnow()` values. An unparseable
date raises in `parse_date` and surfaces as `internal`. -/
def api_create_leave (data : Dataset) (ident : Identity) (body : LeaveBody)
    (new_id created_at : String) : ApiResult LeaveRequest × Dataset :=
  ApiResult.bindState (require_user data ident) data fun user =>
    if leave_missing body ≠ [] then
      (.errFields 400 "Missing fields" (leave_missing body), data)
    else
      match parse_date (body.start_date.getD "") with
      | none => (.internal, data)
      | some startv =>
        match parse_date (body.end_date.getD "") with
        | none => (.internal, data)
        | some endv =>
          if endv < startv then
            (.err 400 "End date must be on/after start date", data)
          else
            let item : LeaveRequest :=
              { id := new_id
                user_id := user.id
                employee_name := user.name
                department := user.department
                leave_type := body.leave_type.getD ""
                start_date := body.start_date.getD ""
                end_date := body.end_date.getD ""
                days := endv - startv + 1
                reason := body.reason.getD ""
                status := "pending"
                approver_comment := ""
                approved_by := ""
                created_at := created_at }
            (.ok item, { data with leave_requests := data.leave_requests ++ [item] })

/-- Request payload of `api_create_correction`; again the trailing fields are
caller-supplied keys the handler never reads. -/
structure CorrectionBody where
  date : Option String
  clock_in : Option String
  clock_out : Option String
  reason : Option String
  break_minutes : Option Int
  overtime_hours : Option Int
  user_id : Option String
  employee_name : Option String
  department : Option String
deriving Repr, DecidableEq

/-- The `missing` list of `api_create_correction`, in source order. -/
def correction_missing (b : CorrectionBody) : List String :=
  (if falsyOpt b.date then ["date"] else []) ++
  (if falsyOpt b.clock_in then ["clock_in"] else []) ++
  (if falsyOpt b.clock_out then ["clock_out"] else []) ++
  (if falsyOpt b.reason then ["reason"] else [])

/-- `api_create_correction`. -/
def api_create_correction (data : Dataset) (ident : Identity) (body : CorrectionBody)
    (new_id created_at : String) : ApiResult AttendanceCorrection × Dataset :=
  ApiResult.bindState (require_user data ident) data fun user =>
    if correction_missing body ≠ [] then
      (.errFields 400 "Missing fields" (correction_missing body), data)
    else
      let item : AttendanceCorrection :=
        { id := new_id
          user_id := user.id
          employee_name := user.name
          department := user.department
          date := body.date.getD ""
          clock_in := body.clock_in.getD ""
          clock_out := body.clock_out.getD ""
          break_minutes := body.break_minutes.getD 0
          overtime_hours := body.overtime_hours.getD 0
          reason := body.reason.getD ""
          status := "pending"
          approver_comment := ""
          approved_by := ""
          created_at := created_at }
      (.ok item, { data with attendance_corrections := data.attendance_corrections ++ [item] })

/-! ### Approval (`api_approve`) -/

/-- Request payload of `api_approve`. -/
structure ApproveBody where
  category : Option String
  id : Option String
  action : Option String
  comment : Option String
deriving Repr, DecidableEq

/-- Update the first element satisfying `p` (the Python code mutates the
record object returned by `next(...)`, the first match, in place). -/
def update_first {α : Type} (p : α → Bool) (f : α → α) : List α → List α
  | [] => []
  | x :: xs => if p x then f x :: xs else x :: update_first p f xs

/-- The field update applied to an approved/rejected leave record. -/
def apply_approval_leave (action comment approver : String) (r : LeaveRequest) :
    LeaveRequest :=
  { r with status := action, approver_comment := comment, approved_by := approver }

/-- The field update applied to an approved/rejected correction record. -/
def apply_approval_corr (action comment approver : String) (r : AttendanceCorrection) :
    AttendanceCorrection :=
  { r with status := action, approver_comment := comment, approved_by := approver }

/-- The team check and state update of `api_approve`, once a leave target has
been found. When the owner id resolves to no user, a non-admin actor hits
`None.get("manager_id")` and the handler dies with the generic 500. -/
def approve_leave_found (data : Dataset) (user : User) (body : ApproveBody)
    (target : LeaveRequest) : ApiResult (Sum LeaveRequest AttendanceCorrection) × Dataset :=
  let doit : ApiResult (Sum LeaveRequest AttendanceCorrection) × Dataset :=
    let upd := apply_approval_leave (body.action.getD "") (body.comment.getD "") user.name
    (.ok (.inl (upd target)),
      { data with leave_requests :=
          update_first (fun r => some r.id == body.id) upd data.leave_requests })
  match user_lookup data target.user_id with
  | some owner =>
    if in_team user owner then doit
    else (.err 403 "Cannot approve outside your team", data)
  | none =>
    if user.role == "admin" then doit else (.internal, data)

/-- Same as `approve_leave_found` for the correction bucket. -/
def approve_corr_found (data : Dataset) (user : User) (body : ApproveBody)
    (target : AttendanceCorrection) : ApiResult (Sum LeaveRequest AttendanceCorrection) × Dataset :=
  let doit : ApiResult (Sum LeaveRequest AttendanceCorrection) × Dataset :=
    let upd := apply_approval_corr (body.action.getD "") (body.comment.getD "") user.name
    (.ok (.inr (upd target)),
      { data with attendance_corrections :=
          update_first (fun r => some r.id == body.id) upd data.attendance_corrections })
  match user_lookup data target.user_id with
  | some owner =>
    if in_team user owner then doit
    else (.err 403 "Cannot approve outside your team", data)
  | none =>
    if user.role == "admin" then doit else (.internal, data)

/-- `api_approve`: category/action shape checks come before the store is
even loaded; then identity, role gate, target lookup, team check, update. -/
def api_approve (data : Dataset) (ident : Identity) (body : ApproveBody) :
    ApiResult (Sum LeaveRequest AttendanceCorrection) × Dataset :=
  if !(body.category == some "leave" || body.category == some "correction") then
    (.err 400 "Invalid category", data)
  else if !(body.action == some "approved" || body.action == some "rejected") then
    (.err 400 "Invalid action", data)
  else
    ApiResult.bindState (require_user data ident) data fun user =>
      if !guard_role user ["manager", "admin"] then
        (.err 403 "Forbidden for this role", data)
      else if body.category == some "leave" then
        match data.leave_requests.find? (fun r => some r.id == body.id) with
        | none => (.err 404 "Request not found", data)
        | some target => approve_leave_found data user body target
      else
        match data.attendance_corrections.find? (fun r => some r.id == body.id) with
        | none => (.err 404 "Request not found", data)
        | some target => approve_corr_found data user body target

/-! ### Reports (`api_reports`) -/

/-- The raw query parameters of the report endpoints (each defaults to `""`
when absent). `end_q` models the `end` query parameter (a reserved word in
Lean); `start_q` is named symmetrically. -/
structure ReportQuery where
  start_q : String
  end_q : String
  department : String
  employee : String
deriving Repr, DecidableEq

/-- `parse_date(s) if s else None`, where a parse failure is an exception
escaping the handler: `none` = exception, `some none` = no filter,
`some (some d)` = filter at ordinal `d`. -/
def query_date (s : String) : Option (Option Int) :=
  if s.isEmpty then some none
  else
    match parse_date s with
    | none => none
    | some d => some (some d)

/-- `match_filters` of `api_reports` (containment date rule), generic over
the bucket: `uid`, `istart`, `iend` are the `user_id` of the item and its
`start_date`/`end_date` strings (a correction passes its `date` for both).
`none` = `parse_date` raised on a stored date string. -/
def match_filters (lookup : String → Option User) (dept_filter emp_filter : String)
    (start_date end_date : Option Int) (uid istart iend : String) : Option Bool :=
  if dept_filter != "" &&
      (match lookup uid with
       | some owner => owner.department != dept_filter
       | none => false) then
    some false
  else if emp_filter != "" && uid != emp_filter then
    some false
  else
    let end_check : Option Bool :=
      match end_date with
      | none => some true
      | some ed =>
        match parse_date iend with
        | none => none
        | some iev => if iev > ed then some false else some true
    match start_date with
    | none => end_check
    | some sd =>
      match parse_date istart with
      | none => none
      | some isv => if isv < sd then some false else end_check

/-- A Python list comprehension with a possibly-raising predicate: `none`
as soon as the predicate raises on any element. -/
def filter_opt {α : Type} (p : α → Option Bool) : List α → Option (List α)
  | [] => some []
  | x :: xs =>
    match p x with
    | none => none
    | some b =>
      match filter_opt p xs with
      | none => none
      | some rest => some (if b then x :: rest else rest)

/-- The `leave_items` selection of `api_reports`: approved leave records
passing `match_filters` (the filter is only evaluated for approved ones). -/
def report_leave_items (data : Dataset) (dept emp : String) (sd ed : Option Int) :
    Option (List LeaveRequest) :=
  filter_opt (fun r =>
    if r.status == "approved" then
      match_filters (user_lookup data) dept emp sd ed r.user_id r.start_date r.end_date
    else some false) data.leave_requests

/-- The `corr_items` selection of `api_reports`: a correction contributes its
single `date` as both span ends. -/
def report_corr_items (data : Dataset) (dept emp : String) (sd ed : Option Int) :
    Option (List AttendanceCorrection) :=
  filter_opt (fun r =>
    if r.status == "approved" then
      match_filters (user_lookup data) dept emp sd ed r.user_id r.date r.date
    else some false) data.attendance_corrections

/-- One step of the `leave_summary` dict accumulation
(`setdefault` + `+=`, preserving first-insertion order). -/
def add_days (acc : List (String × Int)) (uid : String) (d : Int) : List (String × Int) :=
  match acc with
  | [] => [(uid, d)]
  | (k, v) :: rest => if k == uid then (k, v + d) :: rest else (k, v) :: add_days rest uid d

/-- The `leave_summary` dict of `api_reports`, as an insertion-ordered
association list from user id to summed `days`. -/
def leave_summary (items : List LeaveRequest) : List (String × Int) :=
  items.foldl (fun acc r => add_days acc r.user_id r.days) []

/-- One row of `report["leave_totals"]`. -/
structure ReportRow where
  employee_id : String
  employee_name : String
  department : String
  leave_days_taken : Int
  leave_days_remaining : Int
deriving Repr, DecidableEq

/-- Build a `leave_totals` row from a summary entry; a missing user yields
`users.get(uid, {})`, i.e. empty strings and allowance 0 (= `emptyUser`). -/
def report_row (lookup : String → Option User) (p : String × Int) : ReportRow :=
  let u := (lookup p.1).getD emptyUser
  { employee_id := p.1
    employee_name := u.name
    department := u.department
    leave_days_taken := p.2
    leave_days_remaining := max (u.annual_leave_allowance - p.2) 0 }

/-- The `report` object of a successful `api_reports` call. -/
structure Report where
  leave_totals : List ReportRow
  correction_count : Nat
  filters : ReportQuery
deriving Repr, DecidableEq

/-- `api_reports`: role gate, query-date parsing, the two approved-and-
contained selections, then per-user aggregation. -/
def api_reports (data : Dataset) (ident : Identity) (q : ReportQuery) :
    ApiResult Report :=
  (require_user data ident).bind fun user =>
    if !guard_role user ["manager", "admin"] then .err 403 "Forbidden for this role"
    else
      match query_date q.start_q with
      | none => .internal
      | some sd =>
        match query_date q.end_q with
        | none => .internal
        | some ed =>
          match report_leave_items data q.department q.employee sd ed with
          | none => .internal
          | some leave_items =>
            match report_corr_items data q.department q.employee sd ed with
            | none => .internal
            | some corr_items =>
              .ok { leave_totals :=
                      (leave_summary leave_items).map (report_row (user_lookup data))
                    correction_count := corr_items.length
                    filters := q }

/-! ### Export (`api_reports_export`) -/

/-- The `match` filter of `api_reports_export` (overlap date rule, every
status). Both stored dates are parsed before the window tests, so a bad
stored date raises even when no window is given. -/
def match_export (lookup : String → Option User) (dept_filter emp_filter : String)
    (start_date end_date : Option Int) (uid istart iend : String) : Option Bool :=
  if dept_filter != "" &&
      (match lookup uid with
       | some owner => owner.department != dept_filter
       | none => false) then
    some false
  else if emp_filter != "" && uid != emp_filter then
    some false
  else
    match parse_date istart, parse_date iend with
    | some isv, some iev =>
      let end_check : Option Bool :=
        match end_date with
        | none => some true
        | some ed => if isv > ed then some false else some true
      match start_date with
      | none => end_check
      | some sd => if iev < sd then some false else end_check
    | _, _ => none

/-- One CSV row of the export, with its fixed column set. -/
structure ExportRow where
  category : String
  employee_id : String
  employee_name : String
  department : String
  status : String
  start_date : String
  end_date : String
  days : Int
  leave_type : String
  reason : String
  approver_comment : String
  approved_by : String
  created_at : String
deriving Repr, DecidableEq

/-- The export row built from a leave record. -/
def leave_export_row (r : LeaveRequest) : ExportRow :=
  { category := "leave"
    employee_id := r.user_id
    employee_name := r.employee_name
    department := r.department
    status := r.status
    start_date := r.start_date
    end_date := r.end_date
    days := r.days
    leave_type := r.leave_type
    reason := r.reason
    approver_comment := r.approver_comment
    approved_by := r.approved_by
    created_at := r.created_at }

/-- The export row built from a correction record: its single `date` fills
both span columns, `days` is 0 and `leave_type` empty. -/
def corr_export_row (r : AttendanceCorrection) : ExportRow :=
  { category := "attendance_correction"
    employee_id := r.user_id
    employee_name := r.employee_name
    department := r.department
    status := r.status
    start_date := r.date
    end_date := r.date
    days := 0
    leave_type := ""
    reason := r.reason
    approver_comment := r.approver_comment
    approved_by := r.approved_by
    created_at := r.created_at }

/-- The leave rows of the export (every status, overlap rule). -/
def export_leave_rows (data : Dataset) (dept emp : String) (sd ed : Option Int) :
    Option (List ExportRow) :=
  (filter_opt (fun r =>
    match_export (user_lookup data) dept emp sd ed r.user_id r.start_date r.end_date)
    data.leave_requests).map (List.map leave_export_row)

/-- The correction rows of the export. -/
def export_corr_rows (data : Dataset) (dept emp : String) (sd ed : Option Int) :
    Option (List ExportRow) :=
  (filter_opt (fun r =>
    match_export (user_lookup data) dept emp sd ed r.user_id r.date r.date)
    data.attendance_corrections).map (List.map corr_export_row)

/-- `api_reports_export`: same gate and query parsing as `api_reports`, then
the leave rows followed by the correction rows. -/
def api_reports_export (data : Dataset) (ident : Identity) (q : ReportQuery) :
    ApiResult (List ExportRow) :=
  (require_user data ident).bind fun user =>
    if !guard_role user ["manager", "admin"] then .err 403 "Forbidden for this role"
    else
      match query_date q.start_q with
      | none => .internal
      | some sd =>
        match query_date q.end_q with
        | none => .internal
        | some ed =>
          match export_leave_rows data q.department q.employee sd ed with
          | none => .internal
          | some lrows =>
            match export_corr_rows data q.department q.employee sd ed with
            | none => .internal
            | some crows => .ok (lrows ++ crows)

/-! ### Settings (`api_settings_update`) -/

/-- Request payload of `api_settings_update` (`none` = key absent). -/
structure SettingsBody where
  leave_types : Option (List String)
  holidays : Option (List String)
  approval_routes : Option (List ApprovalRoute)
deriving Repr, DecidableEq

/-- `api_settings_update`: admin-gated; each present key replaces its config
list (string lists drop falsy entries); the response echoes the whole
mutated dataset under the `settings` key. -/
def api_settings_update (data : Dataset) (ident : Identity) (body : SettingsBody) :
    ApiResult Dataset × Dataset :=
  ApiResult.bindState (require_user data ident) data fun user =>
    if !guard_role user ["admin"] then (.err 403 "Forbidden for this role", data)
    else
      let d1 := match body.leave_types with
        | some lt => { data with leave_types := lt.filter (fun s => !s.isEmpty) }
        | none => data
      let d2 := match body.holidays with
        | some hs => { d1 with holidays := hs.filter (fun s => !s.isEmpty) }
        | none => d1
      let d3 := match body.approval_routes with
        | some rs => { d2 with approval_routes := rs }
        | none => d2
      (.ok d3, d3)

/-! ### Store (`SEED`, `load_data`) -/

/-- The fixed seed dataset. -/
def SEED : Dataset :=
  { users :=
      [ { id := "e001", name := "Alice Tanaka", role := "employee",
          department := "Sales", manager_id := some "m001",
          annual_leave_allowance := 20 }
      , { id := "e002", name := "Bob Suzuki", role := "employee",
          department := "Engineering", manager_id := some "m002",
          annual_leave_allowance := 18 }
      , { id := "m001", name := "Mika Yamada", role := "manager",
          department := "Sales", manager_id := some "a001",
          annual_leave_allowance := 22 }
      , { id := "m002", name := "Ryo Watanabe", role := "manager",
          department := "Engineering", manager_id := some "a001",
          annual_leave_allowance := 22 }
      , { id := "a001", name := "Admin Ito", role := "admin",
          department := "HQ", manager_id := none,
          annual_leave_allowance := 25 } ]
    leave_types := ["Paid", "Sick", "Half-day", "Special"]
    holidays := ["2025-01-01", "2025-02-11", "2025-04-29", "2025-05-03"]
    approval_routes :=
      [ { department := "Sales", manager_id := "m001" }
      , { department := "Engineering", manager_id := "m002" } ]
    leave_requests := []
    attendance_corrections := [] }

/-- State of the persisted `data.json` at the parse level: `none` = file
missing, `some none` = present but not valid JSON, `some (some d)` = parses
to dataset `d`. -/
abbrev PersistedStore := Option (Option Dataset)

/-- `load_data`: a missing file is first rewritten with the seed and then
read back; unparseable content is rewritten with the seed and a fresh copy
of the seed is returned; otherwise the parsed dataset is returned. The
returned pair is (dataset handed to the caller, resulting file state). -/
def load_data : PersistedStore → Dataset × PersistedStore
  | none => (SEED, some (some SEED))
  | some none => (SEED, some (some SEED))
  | some (some d) => (d, some (some d))

/-- `save_data`: whole-document rewrite. -/
def save_data (d : Dataset) (_ : PersistedStore) : PersistedStore :=
  some (some d)

/-- Sum of the days fields of the records of a given user in a list
(the spec reading of `leave_days_taken`). -/
def sum_days (items : List LeaveRequest) (uid : String) : Int :=
  ((items.filter (fun r => r.user_id == uid)).map (fun r => r.days)).sum

/-- Lookup of a key in the insertion-ordered summary list (the value the
Python dict holds for that key). -/
def lookup_days : List (String × Int) → String → Option Int
  | [], _ => none
  | p :: rest, k => if p.1 == k then some p.2 else lookup_days rest k

/-! ### Spec-side date-window predicates

These two definitions follow the words of the specification (containment
versus overlap), to be compared against the filters implemented by the
code. -/

/-- Spec wording for the summary report window rule: the item span lies
fully within the window (item start ≥ filter start and item end ≤ filter
end). -/
def spec_within_window (sd ed : Int) (istart iend : String) : Bool :=
  match parse_date istart, parse_date iend with
  | some isv, some iev => decide (sd ≤ isv) && decide (iev ≤ ed)
  | _, _ => false

/-- Spec wording for the export window rule: the item span merely overlaps
the window (item end ≥ filter start and item start ≤ filter end). -/
def spec_overlaps_window (sd ed : Int) (istart iend : String) : Bool :=
  match parse_date istart, parse_date iend with
  | some isv, some iev => decide (sd ≤ iev) && decide (isv ≤ ed)
  | _, _ => false

/-! ### Concrete fixtures used by witnesses and counterexamples -/

/-- An approved leave request of Alice spanning 2025-03-01 .. 2025-03-10
(ordinals 739311 .. 739320): it straddles the window 03-05 .. 03-08. -/
def lv_alice : LeaveRequest :=
  { id := "lv-a", user_id := "e001", employee_name := "Alice Tanaka",
    department := "Sales", leave_type := "Paid", start_date := "2025-03-01",
    end_date := "2025-03-10", days := 10, reason := "trip",
    status := "approved", approver_comment := "", approved_by := "",
    created_at := "t1" }

/-- A pending leave request of Bob (direct report of m002). -/
def lv_bob : LeaveRequest :=
  { id := "lv-b", user_id := "e002", employee_name := "Bob Suzuki",
    department := "Engineering", leave_type := "Paid",
    start_date := "2025-04-01", end_date := "2025-04-02", days := 2,
    reason := "rest", status := "pending", approver_comment := "",
    approved_by := "", created_at := "t2" }

/-- A pending leave request of the manager m001 herself. -/
def lv_mika : LeaveRequest :=
  { id := "lv-m", user_id := "m001", employee_name := "Mika Yamada",
    department := "Sales", leave_type := "Sick", start_date := "2025-05-01",
    end_date := "2025-05-01", days := 1, reason := "cold",
    status := "pending", approver_comment := "", approved_by := "",
    created_at := "t3" }

/-- A second approved leave request of Alice, 15 days, pushing her total
past her 20-day allowance. -/
def lv_alice2 : LeaveRequest :=
  { id := "lv-a2", user_id := "e001", employee_name := "Alice Tanaka",
    department := "Sales", leave_type := "Paid", start_date := "2025-06-01",
    end_date := "2025-06-15", days := 15, reason := "long trip",
    status := "approved", approver_comment := "", approved_by := "",
    created_at := "t5" }

/-- A pending attendance correction of Alice. -/
def ac_alice : AttendanceCorrection :=
  { id := "ac-a", user_id := "e001", employee_name := "Alice Tanaka",
    department := "Sales", date := "2025-03-03", clock_in := "09:15",
    clock_out := "18:00", break_minutes := 60, overtime_hours := 0,
    reason := "late", status := "pending", approver_comment := "",
    approved_by := "", created_at := "t4" }

/-- A pending attendance correction of Bob. -/
def ac_bob : AttendanceCorrection :=
  { id := "ac-b", user_id := "e002", employee_name := "Bob Suzuki",
    department := "Engineering", date := "2025-03-06", clock_in := "08:30",
    clock_out := "17:30", break_minutes := 45, overtime_hours := 1,
    reason := "train", status := "pending", approver_comment := "",
    approved_by := "", created_at := "t6" }

/-- The seed users with a mixed bucket of requests. -/
def fixtureData : Dataset :=
  { SEED with
    leave_requests := [lv_alice, lv_bob, lv_mika]
    attendance_corrections := [ac_alice, ac_bob] }

/-- Dataset whose only leave record straddles the 03-05 .. 03-08 window. -/
def straddleData : Dataset :=
  { SEED with leave_requests := [lv_alice] }

/-- Dataset where Alice has 25 approved leave days against allowance 20. -/
def overAllowanceData : Dataset :=
  { SEED with leave_requests := [lv_alice, lv_alice2] }

/-- The manager user record of the seed (id m001). -/
def mika : User :=
  { id := "m001", name := "Mika Yamada", role := "manager",
    department := "Sales", manager_id := some "a001",
    annual_leave_allowance := 22 }

/-- The employee user record of the seed (id e001). -/
def alice : User :=
  { id := "e001", name := "Alice Tanaka", role := "employee",
    department := "Sales", manager_id := some "m001",
    annual_leave_allowance := 20 }

/-- The second manager user record of the seed (id m002). -/
def ryo : User :=
  { id := "m002", name := "Ryo Watanabe", role := "manager",
    department := "Engineering", manager_id := some "a001",
    annual_leave_allowance := 22 }

/-- The admin user record of the seed (id a001). -/
def adminIto : User :=
  { id := "a001", name := "Admin Ito", role := "admin", department := "HQ",
    manager_id := none, annual_leave_allowance := 25 }

/-- Identity headers asserting user m001 with no role header. -/
def identMika : Identity := ⟨some "m001", none⟩

/-- Identity headers asserting user e001 with no role header. -/
def identAlice : Identity := ⟨some "e001", none⟩

/-- Identity headers asserting user m002 with no role header. -/
def identRyo : Identity := ⟨some "m002", none⟩

/-- Identity headers asserting user a001 with no role header. -/
def identAdmin : Identity := ⟨some "a001", none⟩

/-- The report window 2025-03-05 .. 2025-03-08 with no other filters. -/
def straddleQuery : ReportQuery := ⟨"2025-03-05", "2025-03-08", "", ""⟩

/-- The unconstrained report query. -/
def emptyQuery : ReportQuery := ⟨"", "", "", ""⟩

/-- A leave-creation payload whose start date is present but unparseable. -/
def badDateBody : LeaveBody :=
  { start_date := some "not-a-date", end_date := some "2025-03-05",
    leave_type := some "Paid", reason := some "vacation", user_id := none,
    employee_name := none, department := none, days := none }

/-- A well-formed leave-creation payload that also tries to spoof the owner
fields and the day count in the body. -/
def spoofBody1 : LeaveBody :=
  { start_date := some "2025-03-05", end_date := some "2025-03-08",
    leave_type := some "Paid", reason := some "vacation",
    user_id := some "a001", employee_name := some "Fake Name",
    department := some "HQ", days := some 99 }

/-- The same payload with different spoofed owner fields. -/
def spoofBody2 : LeaveBody :=
  { start_date := some "2025-03-05", end_date := some "2025-03-08",
    leave_type := some "Paid", reason := some "vacation",
    user_id := some "m002", employee_name := some "Other Fake",
    department := some "Engineering", days := some 1 }

/-- A well-formed correction payload with spoofed owner fields. -/
def spoofCorrBody1 : CorrectionBody :=
  { date := some "2025-03-03", clock_in := some "09:15",
    clock_out := some "18:00", reason := some "late",
    break_minutes := some 60, overtime_hours := none,
    user_id := some "a001", employee_name := some "Fake Name",
    department := some "HQ" }

/-- The same correction payload with different spoofed owner fields. -/
def spoofCorrBody2 : CorrectionBody :=
  { date := some "2025-03-03", clock_in := some "09:15",
    clock_out := some "18:00", reason := some "late",
    break_minutes := some 60, overtime_hours := none,
    user_id := some "m002", employee_name := some "Other Fake",
    department := some "Engineering" }

/-! ## Helper lemmas -/

theorem ApiResult.ok_bind {α β : Type} (a : α) (f : α → ApiResult β) :
    (ApiResult.ok a).bind f = f a := rfl

theorem ApiResult.ok_bindState {α β : Type} (a : α) (d : Dataset)
    (f : α → ApiResult β × Dataset) : ApiResult.bindState (.ok a) d f = f a := rfl

theorem ApiResult.bind_eq_ok {α β : Type} {r : ApiResult α} {f : α → ApiResult β}
    {b : β} : r.bind f = .ok b ↔ ∃ a, r = .ok a ∧ f a = .ok b := by
  cases r <;> simp [ApiResult.bind]

/-- When the raising predicate agrees with a total one on every element of
the list, the Python comprehension is an ordinary filter. -/
theorem filter_opt_eq_filter {α : Type} (p : α → Option Bool) (q : α → Bool)
    (l : List α) (h : ∀ x ∈ l, p x = some (q x)) :
    filter_opt p l = some (l.filter q) := by
  induction l with
  | nil => rfl
  | cons x xs ih =>
    have hx := h x (List.mem_cons_self x xs)
    have ihx := ih (fun y hy => h y (List.mem_cons_of_mem x hy))
    cases hq : q x <;> simp [filter_opt, hx, ihx, List.filter_cons, hq]

/-- The team-scope list predicate of a manager, characterised: the record is
owned by the manager, or its owner resolves and has the manager as direct
manager. -/
theorem team_pred_iff (data : Dataset) (user : User) (hr : user.role = "manager")
    (uid : String) :
    ((in_team user ((user_lookup data uid).getD emptyUser) || uid == user.id) = true) ↔
      (uid = user.id ∨
        ∃ owner, user_lookup data uid = some owner ∧ owner.manager_id = some user.id) := by
  cases hlk : user_lookup data uid with
  | none =>
    simp [in_team, hr, hlk, emptyUser]
  | some owner =>
    simp [in_team, hr, hlk, or_comm]

/-! ## Claim theorems -/

/-- C9: when the persisted store is missing or its content is unparseable,
load returns the fixed seed dataset and re-persists it before returning,
and the recovery is idempotent: the subsequent load returns the same seed
dataset from the re-persisted store. -/
theorem C9_load_recovers_seed (s : PersistedStore) (h : s = none ∨ s = some none) :
    load_data s = (SEED, some (some SEED)) ∧
    load_data (load_data s).2 = (SEED, some (some SEED)) := by
  rcases h with h | h <;> subst h <;> exact ⟨rfl, rfl⟩

theorem C9_witness :
    ((none : PersistedStore) = none ∨ (none : PersistedStore) = some none) ∧
    load_data none = (SEED, some (some SEED)) ∧
    load_data (load_data (none : PersistedStore)).2 = (SEED, some (some SEED)) :=
  ⟨Or.inl rfl, C9_load_recovers_seed none (Or.inl rfl)⟩

/-- C10: a successful settings update by an admin echoes the entire mutated
dataset under the settings key: the response value is exactly the dataset
that gets saved, and it still carries the users, leave_requests and
attendance_corrections collections unchanged, not only the configuration
fields. -/
theorem C10_settings_echo_full_dataset (data : Dataset) (ident : Identity)
    (body : SettingsBody) (user : User)
    (hu : require_user data ident = .ok user) (hr : user.role = "admin") :
    ∃ d3 : Dataset, api_settings_update data ident body = (.ok d3, d3) ∧
      d3.users = data.users ∧ d3.leave_requests = data.leave_requests ∧
      d3.attendance_corrections = data.attendance_corrections := by
  unfold api_settings_update
  rw [hu, ApiResult.ok_bindState]
  have hg : guard_role user ["admin"] = true := by simp [guard_role, hr]
  rw [hg]
  obtain ⟨lt, hs, ar⟩ := body
  cases lt <;> cases hs <;> cases ar <;> exact ⟨_, rfl, rfl, rfl, rfl⟩

theorem C10_witness :
    require_user SEED identAdmin = .ok adminIto ∧ adminIto.role = "admin" ∧
    ∃ d3 : Dataset,
      api_settings_update SEED identAdmin
        ⟨some ["Annual", ""], none, none⟩ = (.ok d3, d3) ∧
      d3.users = SEED.users ∧ d3.leave_requests = SEED.leave_requests ∧
      d3.attendance_corrections = SEED.attendance_corrections :=
  ⟨rfl, rfl, C10_settings_echo_full_dataset SEED identAdmin
    ⟨some ["Annual", ""], none, none⟩ adminIto rfl rfl⟩

/-- C4: an actor whose role is employee gets, from either list bucket, the
records whose user_id equals their own id, whatever the scope parameter
says; in particular every returned record is their own. -/
theorem C4_employee_list_own_only (data : Dataset) (ident : Identity)
    (scope : Option String) (user : User)
    (hu : require_user data ident = .ok user) (hr : user.role = "employee") :
    api_list_leave data ident scope =
      .ok (data.leave_requests.filter (fun r => r.user_id == user.id)) ∧
    api_list_corrections data ident scope =
      .ok (data.attendance_corrections.filter (fun r => r.user_id == user.id)) ∧
    (∀ L, api_list_leave data ident scope = .ok L →
      ∀ r ∈ L, r.user_id = user.id) ∧
    (∀ C, api_list_corrections data ident scope = .ok C →
      ∀ r ∈ C, r.user_id = user.id) := by
  have hleave : api_list_leave data ident scope =
      .ok (data.leave_requests.filter (fun r => r.user_id == user.id)) := by
    unfold api_list_leave
    rw [hu, ApiResult.ok_bind]
    simp [list_scope_filter, hr]
  have hcorr : api_list_corrections data ident scope =
      .ok (data.attendance_corrections.filter (fun r => r.user_id == user.id)) := by
    unfold api_list_corrections
    rw [hu, ApiResult.ok_bind]
    simp [list_scope_filter, hr]
  refine ⟨hleave, hcorr, ?_, ?_⟩
  · intro L hL r hrL
    rw [hleave] at hL
    cases hL
    exact beq_iff_eq.mp (List.mem_filter.mp hrL).2
  · intro C hC r hrC
    rw [hcorr] at hC
    cases hC
    exact beq_iff_eq.mp (List.mem_filter.mp hrC).2

theorem C4_witness :
    require_user fixtureData identAlice = .ok alice ∧ alice.role = "employee" ∧
    api_list_leave fixtureData identAlice (some "team") =
      .ok (fixtureData.leave_requests.filter (fun r => r.user_id == alice.id)) ∧
    api_list_leave fixtureData identAlice (some "team") = .ok [lv_alice] := by
  refine ⟨rfl, rfl, (C4_employee_list_own_only fixtureData identAlice
    (some "team") alice rfl rfl).1, ?_⟩
  decide

/-- Closed form of the manager branch of the listing filter. -/
theorem list_scope_filter_manager_team {α : Type} (user : User)
    (lookup : String → Option User) (uid : α → String) (items : List α)
    (hr : user.role = "manager") :
    list_scope_filter user lookup "team" uid items =
      items.filter (fun r =>
        in_team user ((lookup (uid r)).getD emptyUser) || uid r == user.id) := by
  unfold list_scope_filter
  rw [hr]
  rfl

/-- C2: a manager listing with scope=team gets, from either bucket, exactly
their own records united with the records whose resolved owner has
manager_id equal to the manager id (direct reports, one hop); any record
whose resolved owner has a different manager_id can only appear when it is
a record owned by the manager, so reports of other managers and transitive
reports are never included. -/
theorem C2_manager_team_scope (data : Dataset) (ident : Identity) (user : User)
    (hu : require_user data ident = .ok user) (hr : user.role = "manager") :
    ∃ L C,
      api_list_leave data ident (some "team") = .ok L ∧
      api_list_corrections data ident (some "team") = .ok C ∧
      (∀ r : LeaveRequest, r ∈ L ↔ r ∈ data.leave_requests ∧
        (r.user_id = user.id ∨ ∃ owner, user_lookup data r.user_id = some owner ∧
          owner.manager_id = some user.id)) ∧
      (∀ r : AttendanceCorrection, r ∈ C ↔ r ∈ data.attendance_corrections ∧
        (r.user_id = user.id ∨ ∃ owner, user_lookup data r.user_id = some owner ∧
          owner.manager_id = some user.id)) ∧
      (∀ r ∈ L, ∀ owner, user_lookup data r.user_id = some owner →
        owner.manager_id ≠ some user.id → r.user_id = user.id) ∧
      (∀ r ∈ C, ∀ owner, user_lookup data r.user_id = some owner →
        owner.manager_id ≠ some user.id → r.user_id = user.id) := by
  have hL : api_list_leave data ident (some "team") =
      .ok (data.leave_requests.filter (fun r =>
        in_team user ((user_lookup data r.user_id).getD emptyUser) ||
          r.user_id == user.id)) := by
    unfold api_list_leave
    rw [hu, ApiResult.ok_bind, Option.getD_some,
      list_scope_filter_manager_team user (user_lookup data) _ _ hr]
  have hC : api_list_corrections data ident (some "team") =
      .ok (data.attendance_corrections.filter (fun r =>
        in_team user ((user_lookup data r.user_id).getD emptyUser) ||
          r.user_id == user.id)) := by
    unfold api_list_corrections
    rw [hu, ApiResult.ok_bind, Option.getD_some,
      list_scope_filter_manager_team user (user_lookup data) _ _ hr]
  refine ⟨_, _, hL, hC, ?_, ?_, ?_, ?_⟩
  · intro r
    rw [List.mem_filter, team_pred_iff data user hr r.user_id]
  · intro r
    rw [List.mem_filter, team_pred_iff data user hr r.user_id]
  · intro r hrL owner hown hne
    have hmem := (List.mem_filter.mp hrL).2
    rcases (team_pred_iff data user hr r.user_id).mp hmem with h | ⟨o, ho, hmid⟩
    · exact h
    · rw [hown] at ho
      cases ho
      exact absurd hmid hne
  · intro r hrC owner hown hne
    have hmem := (List.mem_filter.mp hrC).2
    rcases (team_pred_iff data user hr r.user_id).mp hmem with h | ⟨o, ho, hmid⟩
    · exact h
    · rw [hown] at ho
      cases ho
      exact absurd hmid hne

theorem C2_witness :
    require_user fixtureData identMika = .ok mika ∧ mika.role = "manager" ∧
    api_list_leave fixtureData identMika (some "team") = .ok [lv_alice, lv_mika] ∧
    api_list_corrections fixtureData identMika (some "team") = .ok [ac_alice] ∧
    (∃ L C,
      api_list_leave fixtureData identMika (some "team") = .ok L ∧
      api_list_corrections fixtureData identMika (some "team") = .ok C ∧
      (∀ r : LeaveRequest, r ∈ L ↔ r ∈ fixtureData.leave_requests ∧
        (r.user_id = mika.id ∨ ∃ owner,
          user_lookup fixtureData r.user_id = some owner ∧
          owner.manager_id = some mika.id)) ∧
      (∀ r : AttendanceCorrection, r ∈ C ↔ r ∈ fixtureData.attendance_corrections ∧
        (r.user_id = mika.id ∨ ∃ owner,
          user_lookup fixtureData r.user_id = some owner ∧
          owner.manager_id = some mika.id)) ∧
      (∀ r ∈ L, ∀ owner, user_lookup fixtureData r.user_id = some owner →
        owner.manager_id ≠ some mika.id → r.user_id = mika.id) ∧
      (∀ r ∈ C, ∀ owner, user_lookup fixtureData r.user_id = some owner →
        owner.manager_id ≠ some mika.id → r.user_id = mika.id)) :=
  ⟨rfl, rfl, by decide, by decide,
    C2_manager_team_scope fixtureData identMika mika rfl rfl⟩

/-- C3: an approve/reject call with a valid category and action, made by a
manager on an existing record whose resolved owner does not have the actor
as direct manager, fails with the 403 team message and leaves the dataset
unchanged; and the in-team test accepts every owner when the actor is an
admin. -/
theorem C3_approve_outside_team_forbidden :
    (∀ (data : Dataset) (ident : Identity) (body : ApproveBody) (user : User)
        (target : LeaveRequest) (owner : User),
      require_user data ident = .ok user → user.role = "manager" →
      body.category = some "leave" →
      (body.action = some "approved" ∨ body.action = some "rejected") →
      data.leave_requests.find? (fun r => some r.id == body.id) = some target →
      user_lookup data target.user_id = some owner →
      owner.manager_id ≠ some user.id →
      api_approve data ident body =
        (.err 403 "Cannot approve outside your team", data)) ∧
    (∀ (data : Dataset) (ident : Identity) (body : ApproveBody) (user : User)
        (target : AttendanceCorrection) (owner : User),
      require_user data ident = .ok user → user.role = "manager" →
      body.category = some "correction" →
      (body.action = some "approved" ∨ body.action = some "rejected") →
      data.attendance_corrections.find? (fun r => some r.id == body.id) = some target →
      user_lookup data target.user_id = some owner →
      owner.manager_id ≠ some user.id →
      api_approve data ident body =
        (.err 403 "Cannot approve outside your team", data)) ∧
    (∀ user owner : User, user.role = "admin" → in_team user owner = true) := by
  refine ⟨?_, ?_, ?_⟩
  · intro data ident body user target owner hu hr hcat hact hfind hown hne
    rcases hact with h | h <;>
      (unfold api_approve approve_leave_found;
       rw [hu, hcat, h, hfind];
       simp [ApiResult.bindState, guard_role, hr, hown, in_team, hne, beq_iff_eq])
  · intro data ident body user target owner hu hr hcat hact hfind hown hne
    rcases hact with h | h <;>
      (unfold api_approve approve_corr_found;
       rw [hu, hcat, h, hfind];
       simp [ApiResult.bindState, guard_role, hr, hown, in_team, hne, beq_iff_eq])
  · intro user owner hr
    simp [in_team, hr]

theorem C3_witness :
    require_user fixtureData identRyo = .ok ryo ∧ ryo.role = "manager" ∧
    user_lookup fixtureData lv_alice.user_id = some alice ∧
    alice.manager_id ≠ some ryo.id ∧
    api_approve fixtureData identRyo
      ⟨some "leave", some "lv-a", some "approved", some "no"⟩ =
      (.err 403 "Cannot approve outside your team", fixtureData) :=
  ⟨rfl, rfl, rfl, by decide,
    C3_approve_outside_team_forbidden.1 fixtureData identRyo
      ⟨some "leave", some "lv-a", some "approved", some "no"⟩ ryo lv_alice alice
      rfl rfl rfl (Or.inl rfl) rfl rfl (by decide)⟩

/-- C5 counterexample: with every required field present but an unparseable
start date, the creation call answers with the generic internal failure
(the ValueError of strptime escapes to handle_error), not with a
structured validation response; the store is unchanged. -/
theorem C5_counterexample_internal_not_validation :
    api_create_leave SEED identAlice badDateBody "lv-x" "t0" =
      (ApiResult.internal, SEED) := by
  rfl

/-- C5 (amended): a leave-creation call by an authenticated user in which
no required field is missing but at least one of start_date/end_date is
unparseable fails with the generic Internal error (500), not a validation
response, and the store is unchanged. -/
theorem C5_bad_date_is_internal (data : Dataset) (ident : Identity)
    (body : LeaveBody) (user : User) (nid ca : String)
    (hu : require_user data ident = .ok user)
    (hm : leave_missing body = [])
    (hp : parse_date (body.start_date.getD "") = none ∨
          parse_date (body.end_date.getD "") = none) :
    api_create_leave data ident body nid ca = (.internal, data) := by
  unfold api_create_leave
  rw [hu, ApiResult.ok_bindState]
  rcases hp with hp | hp
  · simp [hm, hp]
  · cases hs : parse_date (body.start_date.getD "") with
    | none => simp [hm, hs]
    | some sv => simp [hm, hs, hp]

theorem C5_bad_date_witness :
    require_user SEED identAlice = .ok alice ∧
    leave_missing badDateBody = [] ∧
    parse_date (badDateBody.start_date.getD "") = none ∧
    api_create_leave SEED identAlice badDateBody "lv-x" "t0" =
      (.internal, SEED) :=
  ⟨rfl, rfl, rfl,
    C5_bad_date_is_internal SEED identAlice badDateBody alice "lv-x" "t0"
      rfl rfl (Or.inl rfl)⟩

/-- Inversion for a successful leave creation: the owner fields of the
created record come from the resolved user. -/
theorem create_leave_ok_owner (data : Dataset) (ident : Identity)
    (body : LeaveBody) (nid ca : String) (user : User) (item : LeaveRequest)
    (dnew : Dataset)
    (hu : require_user data ident = .ok user)
    (h : api_create_leave data ident body nid ca = (.ok item, dnew)) :
    item.user_id = user.id ∧ item.employee_name = user.name ∧
    item.department = user.department := by
  unfold api_create_leave at h
  rw [hu, ApiResult.ok_bindState] at h
  split at h
  · simp at h
  · split at h
    · simp at h
    · split at h
      · simp at h
      · split at h
        · simp at h
        · rw [Prod.mk.injEq] at h
          obtain ⟨hi, -⟩ := h
          injection hi with hi
          rw [← hi]
          exact ⟨rfl, rfl, rfl⟩

/-- Inversion for a successful correction creation. -/
theorem create_corr_ok_owner (data : Dataset) (ident : Identity)
    (body : CorrectionBody) (nid ca : String) (user : User)
    (item : AttendanceCorrection) (dnew : Dataset)
    (hu : require_user data ident = .ok user)
    (h : api_create_correction data ident body nid ca = (.ok item, dnew)) :
    item.user_id = user.id ∧ item.employee_name = user.name ∧
    item.department = user.department := by
  unfold api_create_correction at h
  rw [hu, ApiResult.ok_bindState] at h
  split at h
  · simp at h
  · rw [Prod.mk.injEq] at h
    obtain ⟨hi, -⟩ := h
    injection hi with hi
    rw [← hi]
    exact ⟨rfl, rfl, rfl⟩

/-- C6: the owner fields of a created record are stamped from the resolved
identity: any two successful creation calls by the same identity, whatever
their payloads supply for user_id, employee_name or department, produce
records with identical owner fields, equal to the resolved user record. -/
theorem C6_owner_fields_from_identity (data : Dataset) (ident : Identity)
    (user : User) (hu : require_user data ident = .ok user) :
    (∀ (b1 b2 : LeaveBody) (n1 n2 c1 c2 : String) (i1 i2 : LeaveRequest)
        (d1 d2 : Dataset),
      api_create_leave data ident b1 n1 c1 = (.ok i1, d1) →
      api_create_leave data ident b2 n2 c2 = (.ok i2, d2) →
      i1.user_id = user.id ∧ i1.employee_name = user.name ∧
      i1.department = user.department ∧ i2.user_id = i1.user_id ∧
      i2.employee_name = i1.employee_name ∧ i2.department = i1.department) ∧
    (∀ (b1 b2 : CorrectionBody) (n1 n2 c1 c2 : String)
        (i1 i2 : AttendanceCorrection) (d1 d2 : Dataset),
      api_create_correction data ident b1 n1 c1 = (.ok i1, d1) →
      api_create_correction data ident b2 n2 c2 = (.ok i2, d2) →
      i1.user_id = user.id ∧ i1.employee_name = user.name ∧
      i1.department = user.department ∧ i2.user_id = i1.user_id ∧
      i2.employee_name = i1.employee_name ∧ i2.department = i1.department) := by
  constructor
  · intro b1 b2 n1 n2 c1 c2 i1 i2 d1 d2 h1 h2
    obtain ⟨e1, e2, e3⟩ := create_leave_ok_owner data ident b1 n1 c1 user i1 d1 hu h1
    obtain ⟨f1, f2, f3⟩ := create_leave_ok_owner data ident b2 n2 c2 user i2 d2 hu h2
    exact ⟨e1, e2, e3, f1.trans e1.symm, f2.trans e2.symm, f3.trans e3.symm⟩
  · intro b1 b2 n1 n2 c1 c2 i1 i2 d1 d2 h1 h2
    obtain ⟨e1, e2, e3⟩ := create_corr_ok_owner data ident b1 n1 c1 user i1 d1 hu h1
    obtain ⟨f1, f2, f3⟩ := create_corr_ok_owner data ident b2 n2 c2 user i2 d2 hu h2
    exact ⟨e1, e2, e3, f1.trans e1.symm, f2.trans e2.symm, f3.trans e3.symm⟩

theorem C6_witness :
    require_user SEED identAlice = .ok alice ∧
    (∃ i1 i2 : LeaveRequest, ∃ d1 d2 : Dataset,
      api_create_leave SEED identAlice spoofBody1 "lv-1" "t0" = (.ok i1, d1) ∧
      api_create_leave SEED identAlice spoofBody2 "lv-2" "t0" = (.ok i2, d2) ∧
      i1.user_id = alice.id ∧ i1.employee_name = alice.name ∧
      i1.department = alice.department ∧ i2.user_id = i1.user_id ∧
      i2.employee_name = i1.employee_name ∧ i2.department = i1.department) := by
  have h1 : api_create_leave SEED identAlice spoofBody1 "lv-1" "t0" =
      (.ok { id := "lv-1", user_id := "e001", employee_name := "Alice Tanaka",
             department := "Sales", leave_type := "Paid",
             start_date := "2025-03-05", end_date := "2025-03-08", days := 4,
             reason := "vacation", status := "pending", approver_comment := "",
             approved_by := "", created_at := "t0" },
        { SEED with leave_requests :=
            [{ id := "lv-1", user_id := "e001", employee_name := "Alice Tanaka",
               department := "Sales", leave_type := "Paid",
               start_date := "2025-03-05", end_date := "2025-03-08", days := 4,
               reason := "vacation", status := "pending", approver_comment := "",
               approved_by := "", created_at := "t0" }] }) := by rfl
  have h2 : api_create_leave SEED identAlice spoofBody2 "lv-2" "t0" =
      (.ok { id := "lv-2", user_id := "e001", employee_name := "Alice Tanaka",
             department := "Sales", leave_type := "Paid",
             start_date := "2025-03-05", end_date := "2025-03-08", days := 4,
             reason := "vacation", status := "pending", approver_comment := "",
             approved_by := "", created_at := "t0" },
        { SEED with leave_requests :=
            [{ id := "lv-2", user_id := "e001", employee_name := "Alice Tanaka",
               department := "Sales", leave_type := "Paid",
               start_date := "2025-03-05", end_date := "2025-03-08", days := 4,
               reason := "vacation", status := "pending", approver_comment := "",
               approved_by := "", created_at := "t0" }] }) := by rfl
  exact ⟨rfl, _, _, _, _, h1, h2,
    (C6_owner_fields_from_identity SEED identAlice alice rfl).1
      spoofBody1 spoofBody2 "lv-1" "lv-2" "t0" "t0" _ _ _ _ h1 h2⟩

/-- C7: with both dates parseable and no field missing, a leave creation is
rejected with the 400 range message (store unchanged) exactly when the end
date precedes the start date; otherwise it succeeds and the created record
has days equal to the inclusive ordinal span (end - start + 1), computed
by the service (the caller-supplied days field of the body is never
consulted). -/
theorem C7_days_inclusive_span (data : Dataset) (ident : Identity)
    (body : LeaveBody) (user : User) (nid ca : String) (isv iev : Int)
    (hu : require_user data ident = .ok user)
    (hm : leave_missing body = [])
    (hps : parse_date (body.start_date.getD "") = some isv)
    (hpe : parse_date (body.end_date.getD "") = some iev) :
    (iev < isv →
      api_create_leave data ident body nid ca =
        (.err 400 "End date must be on/after start date", data)) ∧
    (isv ≤ iev →
      ∃ item, api_create_leave data ident body nid ca =
        (.ok item, { data with leave_requests := data.leave_requests ++ [item] }) ∧
        item.days = iev - isv + 1) := by
  constructor
  · intro hlt
    unfold api_create_leave
    rw [hu, ApiResult.ok_bindState]
    simp [hm, hps, hpe, hlt]
  · intro hle
    have hnlt : ¬ iev < isv := not_lt.mpr hle
    unfold api_create_leave
    rw [hu, ApiResult.ok_bindState]
    simp only [hm, ne_eq, not_true_eq_false, if_false, hps, hpe,
      hnlt, if_neg hnlt]
    exact ⟨_, rfl, rfl⟩

theorem C7_witness :
    require_user SEED identAlice = .ok alice ∧
    leave_missing spoofBody1 = [] ∧
    parse_date (spoofBody1.start_date.getD "") = some 739315 ∧
    parse_date (spoofBody1.end_date.getD "") = some 739318 ∧
    ((739318 : Int) < 739315 →
      api_create_leave SEED identAlice spoofBody1 "lv-1" "t0" =
        (.err 400 "End date must be on/after start date", SEED)) ∧
    ((739315 : Int) ≤ 739318 →
      ∃ item, api_create_leave SEED identAlice spoofBody1 "lv-1" "t0" =
        (.ok item, { SEED with leave_requests := SEED.leave_requests ++ [item] }) ∧
        item.days = 739318 - 739315 + 1) :=
  ⟨rfl, rfl, by decide, by decide,
    C7_days_inclusive_span SEED identAlice spoofBody1 alice "lv-1" "t0"
      739315 739318 rfl rfl (by decide) (by decide)⟩

/-- With no department/employee filter and both window bounds given, the
summary filter is the containment test of the spec. -/
theorem match_filters_is_containment (lookup : String → Option User)
    (sd ed : Int) (uid istart iend : String)
    (h1 : (parse_date istart).isSome) (h2 : (parse_date iend).isSome) :
    match_filters lookup "" "" (some sd) (some ed) uid istart iend =
      some (spec_within_window sd ed istart iend) := by
  obtain ⟨isv, hs⟩ := Option.isSome_iff_exists.mp h1
  obtain ⟨iev, he⟩ := Option.isSome_iff_exists.mp h2
  unfold match_filters spec_within_window
  rw [hs, he]
  by_cases h3 : isv < sd
  · have h3' : ¬ sd ≤ isv := by omega
    simp [h3, h3']
  · by_cases h4 : iev > ed
    · have h4' : ¬ iev ≤ ed := by omega
      simp [h3, h4, h4']
    · simp [h3, h4, (by omega : sd ≤ isv), (by omega : iev ≤ ed)]

/-- With no department/employee filter and both window bounds given, the
export filter is the overlap test of the spec. -/
theorem match_export_is_overlap (lookup : String → Option User)
    (sd ed : Int) (uid istart iend : String)
    (h1 : (parse_date istart).isSome) (h2 : (parse_date iend).isSome) :
    match_export lookup "" "" (some sd) (some ed) uid istart iend =
      some (spec_overlaps_window sd ed istart iend) := by
  obtain ⟨isv, hs⟩ := Option.isSome_iff_exists.mp h1
  obtain ⟨iev, he⟩ := Option.isSome_iff_exists.mp h2
  unfold match_export spec_overlaps_window
  rw [hs, he]
  by_cases h3 : iev < sd
  · have h3' : ¬ sd ≤ iev := by omega
    simp [h3, h3']
  · by_cases h4 : isv > ed
    · have h4' : ¬ isv ≤ ed := by omega
      simp [h3, h4, h4']
    · simp [h3, h4, (by omega : sd ≤ iev), (by omega : isv ≤ ed)]

/-- C1: over any dataset whose stored date strings parse, with a filter
window [sd, ed] and no other filters, the summary selections are exactly
the approved records whose span lies fully within the window, while the
export rows are exactly the records of every status whose span overlaps
the window; and a concrete record straddling a window boundary is excluded
from the summary report but included in the export. -/
theorem C1_summary_containment_export_overlap (data : Dataset) (sd ed : Int)
    (hL : ∀ r ∈ data.leave_requests,
      (parse_date r.start_date).isSome ∧ (parse_date r.end_date).isSome)
    (hC : ∀ r ∈ data.attendance_corrections, (parse_date r.date).isSome) :
    report_leave_items data "" "" (some sd) (some ed) =
      some (data.leave_requests.filter (fun r =>
        r.status == "approved" &&
          spec_within_window sd ed r.start_date r.end_date)) ∧
    report_corr_items data "" "" (some sd) (some ed) =
      some (data.attendance_corrections.filter (fun r =>
        r.status == "approved" && spec_within_window sd ed r.date r.date)) ∧
    export_leave_rows data "" "" (some sd) (some ed) =
      some ((data.leave_requests.filter (fun r =>
        spec_overlaps_window sd ed r.start_date r.end_date)).map leave_export_row) ∧
    export_corr_rows data "" "" (some sd) (some ed) =
      some ((data.attendance_corrections.filter (fun r =>
        spec_overlaps_window sd ed r.date r.date)).map corr_export_row) ∧
    (spec_within_window 739315 739318 "2025-03-01" "2025-03-10" = false ∧
     spec_overlaps_window 739315 739318 "2025-03-01" "2025-03-10" = true ∧
     report_leave_items straddleData "" "" (some 739315) (some 739318) =
       some [] ∧
     export_leave_rows straddleData "" "" (some 739315) (some 739318) =
       some [leave_export_row lv_alice] ∧
     api_reports straddleData identMika straddleQuery = .ok ⟨[], 0, straddleQuery⟩ ∧
     api_reports_export straddleData identMika straddleQuery =
       .ok [leave_export_row lv_alice]) := by
  refine ⟨?_, ?_, ?_, ?_, by decide, by decide, by decide, by decide, by decide,
    by decide⟩
  · unfold report_leave_items
    apply filter_opt_eq_filter
    intro r hr
    cases hst : r.status == "approved"
    · simp [hst]
    · simp only [hst, if_true, Bool.true_and]
      exact match_filters_is_containment (user_lookup data) sd ed r.user_id
        r.start_date r.end_date (hL r hr).1 (hL r hr).2
  · unfold report_corr_items
    apply filter_opt_eq_filter
    intro r hr
    cases hst : r.status == "approved"
    · simp [hst]
    · simp only [hst, if_true, Bool.true_and]
      exact match_filters_is_containment (user_lookup data) sd ed r.user_id
        r.date r.date (hC r hr) (hC r hr)
  · unfold export_leave_rows
    rw [filter_opt_eq_filter _
      (fun r => spec_overlaps_window sd ed r.start_date r.end_date) _
      (fun r hr => match_export_is_overlap (user_lookup data) sd ed r.user_id
        r.start_date r.end_date (hL r hr).1 (hL r hr).2)]
    rfl
  · unfold export_corr_rows
    rw [filter_opt_eq_filter _
      (fun r => spec_overlaps_window sd ed r.date r.date) _
      (fun r hr => match_export_is_overlap (user_lookup data) sd ed r.user_id
        r.date r.date (hC r hr) (hC r hr))]
    rfl

theorem C1_witness :
    (∀ r ∈ straddleData.leave_requests,
      (parse_date r.start_date).isSome ∧ (parse_date r.end_date).isSome) ∧
    (∀ r ∈ straddleData.attendance_corrections, (parse_date r.date).isSome) ∧
    (report_leave_items straddleData "" "" (some 739315) (some 739318) =
      some (straddleData.leave_requests.filter (fun r =>
        r.status == "approved" &&
          spec_within_window 739315 739318 r.start_date r.end_date)) ∧
     report_corr_items straddleData "" "" (some 739315) (some 739318) =
      some (straddleData.attendance_corrections.filter (fun r =>
        r.status == "approved" &&
          spec_within_window 739315 739318 r.date r.date)) ∧
     export_leave_rows straddleData "" "" (some 739315) (some 739318) =
      some ((straddleData.leave_requests.filter (fun r =>
        spec_overlaps_window 739315 739318 r.start_date r.end_date)).map
          leave_export_row) ∧
     export_corr_rows straddleData "" "" (some 739315) (some 739318) =
      some ((straddleData.attendance_corrections.filter (fun r =>
        spec_overlaps_window 739315 739318 r.date r.date)).map corr_export_row) ∧
     (spec_within_window 739315 739318 "2025-03-01" "2025-03-10" = false ∧
      spec_overlaps_window 739315 739318 "2025-03-01" "2025-03-10" = true ∧
      report_leave_items straddleData "" "" (some 739315) (some 739318) =
        some [] ∧
      export_leave_rows straddleData "" "" (some 739315) (some 739318) =
        some [leave_export_row lv_alice] ∧
      api_reports straddleData identMika straddleQuery =
        .ok ⟨[], 0, straddleQuery⟩ ∧
      api_reports_export straddleData identMika straddleQuery =
        .ok [leave_export_row lv_alice])) :=
  ⟨by decide, by decide,
    C1_summary_containment_export_overlap straddleData 739315 739318
      (by decide) (by decide)⟩

/-- Effect of one accumulation step on a summary lookup. -/
theorem add_days_lookup (acc : List (String × Int)) (uid : String) (d : Int)
    (k : String) :
    lookup_days (add_days acc uid d) k =
      if k = uid then some ((lookup_days acc k).getD 0 + d)
      else lookup_days acc k := by
  induction acc with
  | nil =>
    by_cases h : k = uid
    · subst h
      simp [add_days, lookup_days]
    · simp [add_days, lookup_days, h, Ne.symm h]
  | cons p rest ih =>
    obtain ⟨a, v⟩ := p
    by_cases hau : a = uid
    · subst hau
      by_cases hk : k = a
      · subst hk
        simp [add_days, lookup_days]
      · simp [add_days, lookup_days, hk, Ne.symm hk]
    · by_cases hk : k = a
      · subst hk
        simp [add_days, lookup_days, hau, Ne.symm hau]
      · simp [add_days, lookup_days, hau, hk, ih, Ne.symm hk]

/-- Splitting the per-user day sum at the head of the list. -/
theorem sum_days_cons (r : LeaveRequest) (rs : List LeaveRequest) (k : String) :
    sum_days (r :: rs) k =
      (if r.user_id = k then r.days else 0) + sum_days rs k := by
  by_cases h : r.user_id = k <;>
    simp [sum_days, List.filter_cons, h, beq_iff_eq]

/-- The folded summary holds, for every key, the sum of the day fields of
the folded records with that key (on top of whatever the accumulator held);
keys touched by no record and absent from the accumulator stay absent. -/
theorem foldl_add_days (items : List LeaveRequest) :
    ∀ (acc : List (String × Int)) (k : String),
      lookup_days (items.foldl (fun a r => add_days a r.user_id r.days) acc) k =
        if (lookup_days acc k).isSome ∨ items.any (fun r => r.user_id == k) then
          some ((lookup_days acc k).getD 0 + sum_days items k)
        else none := by
  induction items with
  | nil =>
    intro acc k
    cases h : lookup_days acc k <;> simp [sum_days, h]
  | cons r rs ih =>
    intro acc k
    rw [List.foldl_cons, ih, add_days_lookup, sum_days_cons]
    by_cases hk : k = r.user_id
    · subst hk
      cases h : lookup_days acc r.user_id <;>
        simp [h, List.any_cons, add_assoc]
    · rw [if_neg hk]
      cases h : lookup_days acc k <;>
        simp [h, hk, Ne.symm hk, List.any_cons]

/-- Keys already present stay, a fresh key is appended. -/
theorem mem_keys_add_days (acc : List (String × Int)) (uid : String) (d : Int)
    (k : String) :
    k ∈ (add_days acc uid d).map Prod.fst ↔
      k ∈ acc.map Prod.fst ∨ k = uid := by
  induction acc with
  | nil => simp [add_days]
  | cons p rest ih =>
    obtain ⟨a, v⟩ := p
    by_cases hau : a = uid
    · subst hau
      by_cases hk : k = a <;> simp [add_days, hk, ih]
    · have : (a == uid) = false := by simp [beq_iff_eq, hau]
      simp [add_days, this, ih]
      tauto

/-- One accumulation step preserves distinctness of the summary keys. -/
theorem nodup_add_days (acc : List (String × Int)) (uid : String) (d : Int)
    (h : (acc.map Prod.fst).Nodup) :
    ((add_days acc uid d).map Prod.fst).Nodup := by
  induction acc with
  | nil => simp [add_days]
  | cons p rest ih =>
    obtain ⟨a, v⟩ := p
    rw [List.map_cons, List.nodup_cons] at h
    by_cases hau : a = uid
    · subst hau
      simp [add_days, List.nodup_cons, h.1, h.2]
    · have hbeq : (a == uid) = false := by simp [beq_iff_eq, hau]
      simp only [add_days, hbeq, Bool.false_eq_true, if_false, List.map_cons,
        List.nodup_cons]
      refine ⟨?_, ih h.2⟩
      rw [mem_keys_add_days]
      rintro (ha | ha)
      · exact h.1 ha
      · exact hau ha

/-- The summary built by the report has pairwise-distinct keys. -/
theorem nodup_leave_summary (items : List LeaveRequest) :
    (((leave_summary items).map Prod.fst)).Nodup := by
  have main : ∀ (acc : List (String × Int)), (acc.map Prod.fst).Nodup →
      (((items.foldl (fun a r => add_days a r.user_id r.days) acc).map
        Prod.fst)).Nodup := by
    induction items with
    | nil => intro acc h; exact h
    | cons r rs ih =>
      intro acc h
      exact ih _ (nodup_add_days acc r.user_id r.days h)
  exact main [] (by simp)

/-- With distinct keys, membership determines the lookup. -/
theorem lookup_of_mem_nodup (pairs : List (String × Int))
    (h : (pairs.map Prod.fst).Nodup) (p : String × Int) (hp : p ∈ pairs) :
    lookup_days pairs p.1 = some p.2 := by
  induction pairs with
  | nil => cases hp
  | cons q rest ih =>
    rw [List.map_cons, List.nodup_cons] at h
    rcases List.mem_cons.mp hp with rfl | hp'
    · simp [lookup_days]
    · have hq : ¬ q.1 = p.1 := by
        intro he
        exact h.1 (he ▸ List.mem_map_of_mem Prod.fst hp')
      simp only [lookup_days, beq_iff_eq, if_neg hq]
      exact ih h.2 hp'

/-- Every summary entry carries exactly the summed approved days of its
user over the selected records. -/
theorem leave_summary_value (items : List LeaveRequest) (p : String × Int)
    (hp : p ∈ leave_summary items) : p.2 = sum_days items p.1 := by
  have h1 := lookup_of_mem_nodup (leave_summary items)
    (nodup_leave_summary items) p hp
  have h2 := foldl_add_days items [] p.1
  rw [leave_summary] at h1
  rw [h1] at h2
  split at h2
  · rw [Option.some_inj] at h2
    rw [h2]
    simp [lookup_days]
  · cases h2

/-- C8: whenever the summary report succeeds, every reported row has
leave_days_remaining equal to max(allowance - leave_days_taken, 0), hence
never negative, and leave_days_taken equal to the sum of the days fields of
that employee among the selected (approved, window-contained) leave
records. -/
theorem C8_remaining_clamped_at_zero (data : Dataset) (ident : Identity)
    (q : ReportQuery) (rep : Report)
    (h : api_reports data ident q = .ok rep) :
    ∃ sd ed L, query_date q.start_q = some sd ∧ query_date q.end_q = some ed ∧
      report_leave_items data q.department q.employee sd ed = some L ∧
      ∀ row ∈ rep.leave_totals,
        row.leave_days_remaining =
          max (((user_lookup data row.employee_id).getD
            emptyUser).annual_leave_allowance - row.leave_days_taken) 0 ∧
        0 ≤ row.leave_days_remaining ∧
        row.leave_days_taken = sum_days L row.employee_id := by
  unfold api_reports at h
  rw [ApiResult.bind_eq_ok] at h
  obtain ⟨user, -, h⟩ := h
  by_cases hg : guard_role user ["manager", "admin"] = true
  · simp only [hg, Bool.not_true, Bool.false_eq_true, if_false] at h
    cases hqs : query_date q.start_q with
    | none => simp [hqs] at h
    | some sd =>
      simp only [hqs] at h
      cases hqe : query_date q.end_q with
      | none => simp [hqe] at h
      | some ed =>
        simp only [hqe] at h
        cases hli : report_leave_items data q.department q.employee sd ed with
        | none => simp [hli] at h
        | some L =>
          simp only [hli] at h
          cases hci : report_corr_items data q.department q.employee sd ed with
          | none => simp [hci] at h
          | some C =>
            simp only [hci] at h
            injection h with h
            refine ⟨sd, ed, L, rfl, rfl, hli, ?_⟩
            intro row hrow
            rw [← h] at hrow
            obtain ⟨p, hp, hpe⟩ := List.mem_map.mp hrow
            subst hpe
            refine ⟨rfl, le_max_right _ _, ?_⟩
            exact leave_summary_value L p hp
  · rw [Bool.not_eq_true] at hg
    simp [hg] at h

theorem C8_witness :
    api_reports overAllowanceData identMika emptyQuery =
      .ok ⟨[⟨"e001", "Alice Tanaka", "Sales", 25, 0⟩], 0, emptyQuery⟩ ∧
    (∃ sd ed L, query_date emptyQuery.start_q = some sd ∧
      query_date emptyQuery.end_q = some ed ∧
      report_leave_items overAllowanceData emptyQuery.department
        emptyQuery.employee sd ed = some L ∧
      ∀ row ∈ (⟨[⟨"e001", "Alice Tanaka", "Sales", 25, 0⟩], 0,
          emptyQuery⟩ : Report).leave_totals,
        row.leave_days_remaining =
          max (((user_lookup overAllowanceData row.employee_id).getD
            emptyUser).annual_leave_allowance - row.leave_days_taken) 0 ∧
        0 ≤ row.leave_days_remaining ∧
        row.leave_days_taken = sum_days L row.employee_id) :=
  ⟨by decide,
    C8_remaining_clamped_at_zero overAllowanceData identMika emptyQuery
      ⟨[⟨"e001", "Alice Tanaka", "Sales", 25, 0⟩], 0, emptyQuery⟩ (by decide)⟩

end HRApp
